import Mathlib

/-!
Verification development for the RaspiNukiBridge BLE protocol engine
(`nuki.py`).  The Python code is shallowly embedded: byte strings become
`List Nat` (each entry one byte), stateful handler branches become pure
step functions from a device-state record to an updated record plus a
list of emitted effects, and fallible Python code (exceptions) becomes
`Option`/flags.  Library primitives that are not part of the repository
(NaCl secretbox, HMAC-SHA256) are abstracted as function parameters
together with the properties the library guarantees.
-/

namespace NukiBridge

/-- `int.to_bytes(n, "little")`: the `n` little-endian bytes of `x`
(the Python call raises on overflow; every use below is bounded). -/
def toBytesLE : Nat → Nat → List Nat
  | 0, _ => []
  | n + 1, x => x % 256 :: toBytesLE n (x / 256)

/-- Recombine a 2-byte little-endian prefix, as `struct.unpack("<H", ...)`. -/
def u16LE : List Nat → Nat
  | b0 :: b1 :: _ => b0 + 256 * b1
  | [b0] => b0
  | [] => 0

/-- Python slice `l[:-k]`: everything but the last `k` entries. -/
def takeAllButLast (k : Nat) (l : List Nat) : List Nat :=
  l.take (l.length - k)

/-- `bytes.ljust(n, pad)`: pad on the right up to length `n`
(never truncates). -/
def ljust (l : List Nat) (n : Nat) (pad : Nat) : List Nat :=
  l ++ List.replicate (n - l.length) pad

/-- One bit step of CRC-16/XMODEM (polynomial 0x1021, MSB first). -/
def crc16Bit (c : Nat) : Nat :=
  if c &&& 0x8000 ≠ 0 then ((c <<< 1) ^^^ 0x1021) &&& 0xffff
  else (c <<< 1) &&& 0xffff

/-- Fold one input byte into the CRC state. -/
def crc16Byte (crc b : Nat) : Nat :=
  (List.range 8).foldl (fun c _ => crc16Bit c) ((crc ^^^ ((b % 256) <<< 8)) &&& 0xffff)

/-- `crc16.crc16xmodem(data, init)` as used by `_prepare_command` and
`_encrypt_command` (init value 0xFFFF at both call sites). -/
def crc16xmodem (data : List Nat) (init : Nat) : Nat :=
  data.foldl crc16Byte init

/-- The `NukiCommand` enum of `nuki.py`. -/
inductive NukiCommand
  | REQUEST_DATA
  | PUBLIC_KEY
  | CHALLENGE
  | AUTH_AUTHENTICATOR
  | AUTH_DATA
  | AUTH_ID
  | KEYTURNER_STATES
  | LOCK_ACTION
  | STATUS
  | ERROR_REPORT
  | REQUEST_CONFIG
  | CONFIG
  | AUTH_ID_CONFIRM
  deriving DecidableEq, Repr

/-- The two-byte wire code of each `NukiCommand` member. -/
def NukiCommand.code : NukiCommand → Nat
  | .REQUEST_DATA => 0x0001
  | .PUBLIC_KEY => 0x0003
  | .CHALLENGE => 0x0004
  | .AUTH_AUTHENTICATOR => 0x0005
  | .AUTH_DATA => 0x0006
  | .AUTH_ID => 0x0007
  | .KEYTURNER_STATES => 0x000C
  | .LOCK_ACTION => 0x000D
  | .STATUS => 0x000E
  | .ERROR_REPORT => 0x0012
  | .REQUEST_CONFIG => 0x0014
  | .CONFIG => 0x0015
  | .AUTH_ID_CONFIRM => 0x001E

/-- `NukiCommand(value)`: look a wire code up in the enum; `none` models the
`ValueError` raised on an unknown code. -/
def codeToCommand (c : Nat) : Option NukiCommand :=
  if c = 0x0001 then some .REQUEST_DATA
  else if c = 0x0003 then some .PUBLIC_KEY
  else if c = 0x0004 then some .CHALLENGE
  else if c = 0x0005 then some .AUTH_AUTHENTICATOR
  else if c = 0x0006 then some .AUTH_DATA
  else if c = 0x0007 then some .AUTH_ID
  else if c = 0x000C then some .KEYTURNER_STATES
  else if c = 0x000D then some .LOCK_ACTION
  else if c = 0x000E then some .STATUS
  else if c = 0x0012 then some .ERROR_REPORT
  else if c = 0x0014 then some .REQUEST_CONFIG
  else if c = 0x0015 then some .CONFIG
  else if c = 0x001E then some .AUTH_ID_CONFIRM
  else none

/-- The `NukiAction` enum of `nuki.py`. -/
inductive NukiAction
  | NONE
  | UNLOCK
  | LOCK
  | UNLATCH
  | LOCK_N_GO
  | LOCK_N_GO_UNLATCH
  | FULL_LOCK
  | FOB_ACTION_1
  | FOB_ACTION_2
  | FOB_ACTION_3
  deriving DecidableEq, Repr

/-- The one-byte wire code of each `NukiAction` member. -/
def NukiAction.code : NukiAction → Nat
  | .NONE => 0x00
  | .UNLOCK => 0x01
  | .LOCK => 0x02
  | .UNLATCH => 0x03
  | .LOCK_N_GO => 0x04
  | .LOCK_N_GO_UNLATCH => 0x05
  | .FULL_LOCK => 0x06
  | .FOB_ACTION_1 => 0x81
  | .FOB_ACTION_2 => 0x82
  | .FOB_ACTION_3 => 0x83

/-- The `DeviceType` enum of `nuki.py`. -/
inductive DeviceType
  | SMARTLOCK_1_2
  | OPENER
  | SMARTDOOR
  | SMARTLOCK_3
  deriving DecidableEq, Repr

/-- The `NukiState` enum of `nuki.py`. -/
inductive NukiState
  | UNINITIALIZED
  | PAIRING_MODE
  | DOOR_MODE
  | CONTINUOUS_MODE
  | MAINTENANCE_MODE
  deriving DecidableEq, Repr

/-- The `LockState` enum of `nuki.py` (smartlock lock states). -/
inductive LockState
  | UNCALIBRATED
  | LOCKED
  | UNLOCKING
  | UNLOCKED
  | LOCKING
  | UNLATCHED
  | UNLOCKED_LOCK_N_GO
  | UNLATCHING
  | CALIBRATION
  | BOOT_RUN
  | MOTOR_BLOCKED
  | UNDEFINED
  deriving DecidableEq, Repr

/-- The `OpenerState` enum of `nuki.py`. -/
inductive OpenerState
  | UNCALIBRATED
  | LOCKED
  | RTO_ACTIVE
  | OPEN
  | OPENING
  | UNDEFINED
  deriving DecidableEq, Repr

/-- The `DoorsensorState` enum of `nuki.py`. -/
inductive DoorsensorState
  | UNAVAILABLE
  | DEACTIVATED
  | DOOR_CLOSED
  | DOOR_OPENED
  | DOOR_STATE_UNKOWN
  | CALIBRATING
  | UNCALIBRATED
  | REMOVED
  | UNKOWN
  deriving DecidableEq, Repr

/-- The value stored under the `lock_state` key of the parsed
KEYTURNER_STATES dict: a `LockState` member for smartlocks, an
`OpenerState` member for openers (`_parse_command` selects by device
type), and `lock`/`unlock`/`unlatch` later overwrite it with a
`LockState` member regardless of device type. -/
inductive LSVal
  | lockS (s : LockState)
  | openerS (s : OpenerState)
  deriving DecidableEq, Repr

/-- The `datetime.datetime(y, mo, d, h, mi, s)` value built by
`_parse_command` from the six clock fields. -/
structure DateTimeVals where
  year : Nat
  month : Nat
  day : Nat
  hour : Nat
  minute : Nat
  second : Nat
  deriving DecidableEq, Repr

/-- The dict produced by `_parse_command` for a KEYTURNER_STATES reply.
For openers the source stores the timer entry under the key
`ring_to_open_timer` instead of `lock_n_go_timer`; the slot is the same. -/
structure KState where
  nukiState : NukiState
  lockState : LSVal
  trigger : Nat
  currentTime : DateTimeVals
  timezoneOffset : Int
  criticalBatteryState : Nat
  currentUpdateCount : Nat
  lockNGoTimer : Nat
  lastLockAction : NukiAction
  lastLockActionTrigger : Nat
  lastLockActionCompletionStatus : Nat
  doorSensorState : DoorsensorState
  nightmodeActive : Nat
  deriving DecidableEq, Repr

/-- Abstraction of `nacl.secret.SecretBox(shared_key)`: `sealMsg nonce msg` is
the ciphertext part of `box.encrypt(msg, nonce)` (the Python value minus its
24-byte nonce prefix), and `opn data` is `box.decrypt(data)` on a combined
`nonce ++ ciphertext` input, `none` modelling a CryptoError.  The theorems
assume exactly the two properties the NaCl library guarantees: the
ciphertext is 16 bytes (the Poly1305 tag) longer than the plaintext, and
decrypting a sealed message returns the plaintext. -/
structure SecretBox where
  sealMsg : List Nat → List Nat → List Nat
  opn : List Nat → Option (List Nat)

/-- `Nuki._prepare_command(cmd_code, payload)`:
`cmd_code.to_bytes(2, "little") + payload + crc16xmodem(..., 0xffff)`. -/
def prepareCommand (cmdCode : Nat) (payload : List Nat) : List Nat :=
  let message := toBytesLE 2 cmdCode ++ payload
  message ++ toBytesLE 2 (crc16xmodem message 0xffff)

/-- `Nuki._encrypt_command(cmd_code, payload)`.  The 24-byte nonce that the
source draws from `nacl.utils.random(24)` is passed in as a parameter. -/
def encryptCommand (box : SecretBox) (authId : List Nat) (cmdCode : Nat)
    (payload : List Nat) (nonce : List Nat) : List Nat :=
  let unencrypted := authId ++ takeAllButLast 2 (prepareCommand cmdCode payload)
  let unencrypted := unencrypted ++ toBytesLE 2 (crc16xmodem unencrypted 0xffff)
  let encrypted := box.sealMsg nonce unencrypted
  nonce ++ authId ++ toBytesLE 2 encrypted.length ++ encrypted

/-- `Nuki._decrypt_command(data)`: split off the 24-byte nonce, read the
auth id and ciphertext length from bytes 24..29 (`struct.unpack("<IH", ...)`,
which raises on fewer than 6 bytes — the `none` guard), decrypt
`nonce + data[30:30+length]` and drop the 4 auth-id bytes of the result. -/
def decryptCommand (box : SecretBox) (data : List Nat) : Option (List Nat) :=
  if data.length < 30 then none
  else
    let nonce := data.take 24
    let len := u16LE ((data.drop 24).drop 4)
    let encrypted := nonce ++ (data.drop 30).take len
    (box.opn encrypted).map (fun m => m.drop 4)

/-- The command-dispatch prefix of `Nuki._parse_command(data)`: the command
code is `struct.unpack("<H", data[:2])` (raises on fewer than 2 bytes),
looked up in the `NukiCommand` enum, and the payload handed to the
per-command decoding is `data[2:-2]` (the 2 CRC bytes are stripped, never
checked). -/
def parseCommandHeader (data : List Nat) : Option (NukiCommand × List Nat) :=
  match data with
  | b0 :: b1 :: rest =>
    match codeToCommand (b0 + 256 * b1) with
    | some cmd => some (cmd, takeAllButLast 2 rest)
    | none => none
  | _ => none

/-- `struct.unpack("<b", ...)`: a byte read as a signed 8-bit integer,
as in the ERROR_REPORT payload decoding. -/
def signedByte (b : Nat) : Int :=
  if b % 256 < 128 then (b % 256 : Int) else (b % 256 : Int) - 256

/-- The values `Nuki._challenge_command` takes: members of either the
`NukiCommand` or the `NukiAction` enum. -/
inductive ChallengeCmd
  | cmd (c : NukiCommand)
  | action (a : NukiAction)
  deriving DecidableEq, Repr

/-- The per-device session state the modelled handler branches read and
write: `last_state` (`None` until a KEYTURNER_STATES reply is parsed),
the truthiness of the `config` dict (empty until a CONFIG reply),
`_challenge_command`, and `device_type`. -/
structure NukiDevice where
  lastState : Option KState
  configNonempty : Bool
  challengeCommand : Option ChallengeCmd
  deviceType : Option DeviceType
  deriving DecidableEq, Repr

/-- Effects a session step emits, in program order.
`sendEncrypted c p` stands for `_send_data(BLE_CHAR, _encrypt_command(c, p))`
with a fresh nonce; `sendPairing frame` for
`_send_data(BLE_PAIRING_CHAR, frame)` of an already framed pairing message;
`notifyObserver` for `await manager.nuki_newstate(self)`; and
`scheduleOpenerReset` for `asyncio.create_task(self.reset_opener_state())`. -/
inductive Effect
  | sendEncrypted (cmdCode : Nat) (payload : List Nat)
  | sendPairing (frame : List Nat)
  | notifyObserver
  | scheduleOpenerReset
  deriving DecidableEq, Repr

/-- `Nuki.get_config()`: set `_challenge_command = REQUEST_CONFIG` and send
an encrypted `REQUEST_DATA(CHALLENGE)`. -/
def getConfigStep (d : NukiDevice) : NukiDevice × List Effect :=
  ({ d with challengeCommand := some (.cmd .REQUEST_CONFIG) },
   [Effect.sendEncrypted NukiCommand.REQUEST_DATA.code
      (toBytesLE 2 NukiCommand.CHALLENGE.code)])

/-- `Nuki.update_state()`: set `_challenge_command = KEYTURNER_STATES` and
send an encrypted `REQUEST_DATA(KEYTURNER_STATES)`. -/
def updateStateStep (d : NukiDevice) : NukiDevice × List Effect :=
  ({ d with challengeCommand := some (.cmd .KEYTURNER_STATES) },
   [Effect.sendEncrypted NukiCommand.REQUEST_DATA.code
      (toBytesLE 2 NukiCommand.KEYTURNER_STATES.code)])

/-- Result of `lock`/`unlock`/`unlatch`/`lock_action`: the mutated device,
the effects emitted before returning, and whether the call raised (the
`TypeError` from `self.last_state['lock_state'] = ...` when `last_state`
is `None`; the device then keeps the mutations made before the raise). -/
structure ActionResult where
  device : NukiDevice
  effects : List Effect
  raised : Bool
  deriving DecidableEq, Repr

/-- Shared body of `Nuki.lock/unlock/unlatch`: set `_challenge_command` to
the action, send the encrypted `REQUEST_DATA(CHALLENGE)`, then assign
`last_state['lock_state'] = newLS` — which raises if `last_state` is
`None`, after the send has already happened. -/
def lockishStep (a : NukiAction) (newLS : LockState) (d : NukiDevice) :
    ActionResult :=
  let d1 := { d with challengeCommand := some (.action a) }
  let effs := [Effect.sendEncrypted NukiCommand.REQUEST_DATA.code
                 (toBytesLE 2 NukiCommand.CHALLENGE.code)]
  match d1.lastState with
  | none => ⟨d1, effs, true⟩
  | some st => ⟨{ d1 with lastState := some { st with lockState := .lockS newLS } },
                effs, false⟩

/-- `Nuki.lock()`. -/
def lockStep (d : NukiDevice) : ActionResult := lockishStep .LOCK .LOCKING d

/-- `Nuki.unlock()`. -/
def unlockStep (d : NukiDevice) : ActionResult := lockishStep .UNLOCK .UNLOCKING d

/-- `Nuki.unlatch()`. -/
def unlatchStep (d : NukiDevice) : ActionResult := lockishStep .UNLATCH .UNLATCHING d

/-- `Nuki.lock_action(action)`: set `_challenge_command` and send the
encrypted `REQUEST_DATA(CHALLENGE)`; `last_state` is never touched. -/
def lockActionStep (a : NukiAction) (d : NukiDevice) : ActionResult :=
  ⟨{ d with challengeCommand := some (.action a) },
   [Effect.sendEncrypted NukiCommand.REQUEST_DATA.code
      (toBytesLE 2 NukiCommand.CHALLENGE.code)], false⟩

/-- `Nuki.is_battery_critical`: `bool(critical_battery_state & 1)`. -/
def isBatteryCritical (st : KState) : Bool :=
  st.criticalBatteryState &&& 1 ≠ 0

/-- `Nuki.is_battery_charging`: `bool(critical_battery_state & 2)`. -/
def isBatteryCharging (st : KState) : Bool :=
  st.criticalBatteryState &&& 2 ≠ 0

/-- `Nuki.battery_percentage`: `((critical_battery_state & 252) >> 2) * 2`. -/
def batteryPercentage (st : KState) : Nat :=
  ((st.criticalBatteryState &&& 252) >>> 2) * 2

/-- The KEYTURNER_STATES branch of `Nuki._notification_handler`.
`update_config = not self.config or (self.last_state["current_update_count"]
!= data["current_update_count"])` is evaluated first (reading
`last_state[...]` raises a `TypeError` when `config` is non-empty but
`last_state` is `None` — the `none` result); then `last_state` is replaced;
then, only when `_challenge_command == KEYTURNER_STATES` and the flag is
set, `get_config()` is awaited; then the observer is notified when both
`config` and `last_state` are truthy; finally the opener reset task is
scheduled when applicable. -/
def handleKeyturnerStates (d : NukiDevice) (data : KState) :
    Option (NukiDevice × List Effect) :=
  let updFlag : Option Bool :=
    if d.configNonempty = false then some true
    else match d.lastState with
      | none => none
      | some st => some (decide (st.currentUpdateCount ≠ data.currentUpdateCount))
  match updFlag with
  | none => none
  | some updateConfig =>
    let d1 := { d with lastState := some data }
    let step :=
      if d1.challengeCommand = some (.cmd .KEYTURNER_STATES) ∧ updateConfig = true
      then getConfigStep d1 else (d1, [])
    let d2 := step.1
    let effNotify := if d2.configNonempty then [Effect.notifyObserver] else []
    let effReset :=
      if d2.deviceType = some .OPENER ∧ data.lastLockActionCompletionStatus ≠ 0
      then [Effect.scheduleOpenerReset] else []
    some (d2, step.2 ++ effNotify ++ effReset)

/-- The ERROR_REPORT branch of `Nuki._notification_handler`, applied to the
signed error-code byte: `NOT_PAIRING` (0x10) prints the banner and calls
`exit(0)`; every other code is only logged.  In neither branch is the
pairing callback invoked or an exception raised. -/
structure ErrorReportResult where
  exitsProcess : Bool
  pairingCallbackInvoked : Bool
  errorRaised : Bool
  deriving DecidableEq, Repr

/-- `if data == PairingError.NOT_PAIRING.value: ... exit(0) else: logger.error`. -/
def handleErrorReport (code : Int) : ErrorReportResult :=
  if code = 0x10 then ⟨true, false, false⟩ else ⟨false, false, false⟩

/-- The process-wide bridge identity the handler reads off `self.manager`:
`app_id` (an int) and `name` (its UTF-8 bytes).  `type_id` is fixed to
`NukiClientType.BRIDGE` (wire code 1). -/
structure BridgeInfo where
  appId : Nat
  nameBytes : List Nat
  deriving DecidableEq, Repr

/-- The CHALLENGE branch of `Nuki._notification_handler`
(`elif command == CHALLENGE and self._challenge_command`), dispatching on
`_challenge_command`.  `hmacSha256 key msg` abstracts
`hmac.new(key, msg, sha256).digest()`; `freshNonce` is the
`nacl.utils.random(32)` draw of the AUTH_AUTHENTICATOR branch; `n2` is the
`nonce` field of the parsed CHALLENGE payload. -/
def handleChallenge (hmacSha256 : List Nat → List Nat → List Nat)
    (br : BridgeInfo) (sharedKey bridgePK nukiPK : List Nat)
    (freshNonce : List Nat) (d : NukiDevice) (n2 : List Nat) :
    NukiDevice × List Effect :=
  match d.challengeCommand with
  | none => (d, [])
  | some (.cmd .REQUEST_CONFIG) =>
    (d, [Effect.sendEncrypted NukiCommand.REQUEST_CONFIG.code n2])
  | some (.action a) =>
    let payload := toBytesLE 1 a.code ++ toBytesLE 4 br.appId
                     ++ toBytesLE 1 0 ++ n2
    (d, [Effect.sendEncrypted NukiCommand.LOCK_ACTION.code payload])
  | some (.cmd .PUBLIC_KEY) =>
    let valueR := bridgePK ++ nukiPK ++ n2
    let payload := hmacSha256 sharedKey valueR
    ({ d with challengeCommand := some (.cmd .AUTH_AUTHENTICATOR) },
     [Effect.sendPairing (prepareCommand NukiCommand.AUTH_AUTHENTICATOR.code payload)])
  | some (.cmd .AUTH_AUTHENTICATOR) =>
    let appId := toBytesLE 4 br.appId
    let typeId := toBytesLE 1 1
    let name := ljust br.nameBytes 32 0
    let valueR := typeId ++ appId ++ name ++ freshNonce ++ n2
    let payload := hmacSha256 sharedKey valueR ++ typeId ++ appId ++ name ++ freshNonce
    ({ d with challengeCommand := some (.cmd .AUTH_DATA) },
     [Effect.sendPairing (prepareCommand NukiCommand.AUTH_DATA.code payload)])
  | some (.cmd _) => (d, [])

/-- The AUTH_DATA frame as §4.3 step `S3 → S4` of the specification words
it: payload `H_k(R || n2) || (type || app_id || name || n3)` with
`R = type(1) || app_id(4 LE) || name(32, NUL-padded) || n3`, framed as an
AUTH_DATA (0x0006) pairing command. -/
def authDataFrameSpec (hmacSha256 : List Nat → List Nat → List Nat)
    (sharedKey : List Nat) (appId : Nat) (nameBytes : List Nat)
    (n3 n2 : List Nat) : List Nat :=
  let t := [1]
  let a := toBytesLE 4 appId
  let nm := nameBytes ++ List.replicate (32 - nameBytes.length) 0
  let r := t ++ a ++ nm ++ n3
  prepareCommand 0x0006 (hmacSha256 sharedKey (r ++ n2) ++ (t ++ a ++ nm ++ n3))

/-- The follow-up work of `NukiManager._detected_ibeacon` for a known
device that passed the manufacturer-data, HomeKit and debounce filters. -/
inductive DispatchTask
  | connectTask
  | updateStateTask
  | getConfigTask
  deriving DecidableEq, Repr

/-- The dispatch tail of `NukiManager._detected_ibeacon`: an independent
`if not nuki.device_type` enqueues the identification connect, and a
separate `if not nuki.last_state or tx_p & 0x1 / elif not nuki.config`
chain issues `update_state` or `get_config`.  `txP` is the last byte of
the Apple manufacturer data. -/
def detectedBeaconTasks (deviceType : Option DeviceType)
    (lastStatePresent : Bool) (txP : Nat) (configNonempty : Bool) :
    List DispatchTask :=
  (if deviceType = none then [DispatchTask.connectTask] else []) ++
  (if lastStatePresent = false ∨ txP &&& 0x1 ≠ 0 then [DispatchTask.updateStateTask]
   else if configNonempty = false then [DispatchTask.getConfigTask]
   else [])

/-- Outcome of one run of a retrying loop: how many attempts were made,
whether one succeeded, the sleeps performed (in seconds for the scanner,
as a count of 200 ms sleeps for `_send_data`), and whether an exception
propagated to the caller. -/
structure RetryResult where
  attempts : Nat
  succeeded : Bool
  sleeps : List Nat
  raised : Bool
  deriving DecidableEq, Repr

/-- `ATTEMPTS` of `NukiManager.start_scanning`. -/
def scanATTEMPTS : Nat := 8

/-- The loop body of `NukiManager.start_scanning` over the remaining
attempt indices (`range(1, ATTEMPTS + 1)`): a successful
`scanner.start()` breaks; on `BleakDBusError`, if `i >= ATTEMPTS - 1` the
error is re-raised, otherwise the loop sleeps `2 ** i` seconds and
continues. -/
def startScanningRun (ok : Nat → Bool) : List Nat → RetryResult
  | [] => ⟨0, false, [], false⟩
  | i :: rest =>
    if ok i then ⟨1, true, [], false⟩
    else if scanATTEMPTS - 1 ≤ i then ⟨1, false, [], true⟩
    else
      let r := startScanningRun ok rest
      ⟨r.attempts + 1, r.succeeded, 2 ^ i :: r.sleeps, r.raised⟩

/-- `NukiManager.start_scanning()`: `ok i` tells whether the i-th
`scanner.start()` call succeeds. -/
def startScanning (ok : Nat → Bool) : RetryResult :=
  startScanningRun ok (List.range' 1 scanATTEMPTS)

/-- The retry loop inside the task of `Nuki._send_data` over the remaining
attempt indices (`range(1, retry + 1)`): a successful connect+write breaks;
any exception is caught, logged, and followed by a 200 ms sleep — after
the last attempt too — and the loop then moves on.  When the range is
exhausted the task returns normally: nothing is raised to the caller. -/
def sendDataRun (ok : Nat → Bool) : List Nat → RetryResult
  | [] => ⟨0, false, [], false⟩
  | i :: rest =>
    if ok i then ⟨1, true, [], false⟩
    else
      let r := sendDataRun ok rest
      ⟨r.attempts + 1, r.succeeded, 1 :: r.sleeps, r.raised⟩

/-- `Nuki._send_data(characteristic, data)` with per-device retry count
`retry`; `ok i` tells whether attempt `i` (connect plus
`write_gatt_char`) succeeds. -/
def sendData (retry : Nat) (ok : Nat → Bool) : RetryResult :=
  sendDataRun ok (List.range' 1 retry)

/-- A concrete secretbox satisfying the two assumed NaCl properties
(used to instantiate the round-trip theorem on concrete frames): the
"ciphertext" is the plaintext plus a 16-byte tag, "decryption" strips the
24-byte nonce and the tag. -/
def mockBox : SecretBox :=
  ⟨fun _ m => m ++ List.replicate 16 0,
   fun d => some ((d.drop 24).take (d.length - 24 - 16))⟩

/-- A concrete stand-in for `hmac.new(key, msg, sha256).digest()` used only
to instantiate theorems that are parametric in the HMAC function. -/
def mockHmac (key msg : List Nat) : List Nat := key ++ msg

/-- A concrete parsed KEYTURNER_STATES dict for witnesses and
counterexamples (battery byte 0b01011001, update count 5). -/
def kstA : KState :=
  ⟨.DOOR_MODE, .lockS .LOCKED, 0, ⟨2022, 1, 1, 0, 0, 0⟩, 0, 0b01011001, 5, 0,
   .NONE, 0, 0, .DOOR_CLOSED, 0⟩

/-- `kstA` with a changed `current_update_count`. -/
def kstB : KState := { kstA with currentUpdateCount := 6 }

/-- Concrete device for the state/config-coupling counterexample: config
cached, a state cached with update count 5, and `_challenge_command`
holding the lock action the bridge just issued (the unsolicited
KEYTURNER_STATES situation). -/
def devCex4 : NukiDevice :=
  ⟨some kstA, true, some (.action .LOCK), some .SMARTLOCK_1_2⟩

/-- Concrete device awaiting a KEYTURNER_STATES reply with empty config,
for the amended-coupling witness. -/
def devW4 : NukiDevice :=
  ⟨none, false, some (.cmd .KEYTURNER_STATES), some .SMARTLOCK_1_2⟩

/-- Concrete device with a cached state, for the optimistic-lock-state
witness. -/
def devW9 : NukiDevice :=
  ⟨some kstA, true, none, some .SMARTLOCK_1_2⟩

/-- Concrete freshly-created device (`last_state = None`), for the
missing-state witness. -/
def devW10 : NukiDevice := ⟨none, false, none, some .SMARTLOCK_1_2⟩

/-- Concrete device awaiting the second pairing challenge, for the
AUTH_DATA witness. -/
def devW2 : NukiDevice :=
  ⟨none, false, some (.cmd .AUTH_AUTHENTICATOR), none⟩

/-- Concrete bridge identity (`app_id` 0x12345678, two-byte name), for the
AUTH_DATA witness. -/
def brW : BridgeInfo := ⟨0x12345678, [78, 66]⟩

theorem toBytesLE_length (n x : Nat) : (toBytesLE n x).length = n := by
  induction n generalizing x with
  | zero => rfl
  | succ n ih => simp [toBytesLE, ih]

theorem toBytesLE_two (c : Nat) : toBytesLE 2 c = [c % 256, c / 256 % 256] := rfl

/-- Claim C3: for every byte value of `critical_battery_state`,
`is_battery_critical` is bit 0, `is_battery_charging` is bit 1, and
`battery_percentage` is `((b & 252) >> 2) * 2`; for `b = 0b01011001` this
gives critical, not charging, 44 %. -/
theorem battery_decoding (st : KState) :
    isBatteryCritical st = st.criticalBatteryState.testBit 0 ∧
    isBatteryCharging st = st.criticalBatteryState.testBit 1 ∧
    batteryPercentage st = ((st.criticalBatteryState &&& 252) >>> 2) * 2 ∧
    (st.criticalBatteryState = 0b01011001 →
      isBatteryCritical st = true ∧ isBatteryCharging st = false ∧
      batteryPercentage st = 44) := by
  refine ⟨?_, ?_, rfl, ?_⟩
  · have h1 : st.criticalBatteryState &&& 1 = (st.criticalBatteryState.testBit 0).toNat * 1 := by
      simpa using Nat.and_two_pow st.criticalBatteryState 0
    rw [isBatteryCritical, h1]
    cases st.criticalBatteryState.testBit 0 <;> simp
  · have h2 : st.criticalBatteryState &&& 2 = (st.criticalBatteryState.testBit 1).toNat * 2 := by
      simpa using Nat.and_two_pow st.criticalBatteryState 1
    rw [isBatteryCharging, h2]
    cases st.criticalBatteryState.testBit 1 <;> simp
  · intro h
    simp [isBatteryCritical, isBatteryCharging, batteryPercentage, h]
    decide

theorem battery_decoding_witness :
    isBatteryCritical kstA = true ∧ isBatteryCharging kstA = false ∧
    batteryPercentage kstA = 44 :=
  (battery_decoding kstA).2.2.2 rfl

/-- Claim C8 (code bug): with `scanner.start()` failing on every attempt,
`start_scanning` makes only 7 attempts — the guard `i >= ATTEMPTS - 1`
re-raises after the 7th failure, so the 8th iteration that
`ATTEMPTS = 8` and `range(1, ATTEMPTS + 1)` provide for is dead code —
sleeping 2^1 .. 2^6 seconds between the attempts it does make, and then
surfaces the transport error. -/
theorem scan_retry_code_behavior :
    startScanning (fun _ => false) =
      ⟨7, false, [2, 4, 8, 16, 32, 64], true⟩ ∧
    7 < scanATTEMPTS := by
  constructor
  · rfl
  · decide

/-- Claim C9: immediately after issuing `lock`/`unlock`/`unlatch`, the
`lock_state` entry of `last_state` is set to `LOCKING`/`UNLOCKING`/
`UNLATCHING` respectively, without any error, and every other entry of
`last_state` is left unchanged (the result is exactly the old dict with
the one entry overwritten). -/
theorem optimistic_lock_state (d : NukiDevice) (st : KState)
    (h : d.lastState = some st) :
    (lockStep d).device.lastState = some { st with lockState := .lockS .LOCKING } ∧
    (lockStep d).raised = false ∧
    (unlockStep d).device.lastState = some { st with lockState := .lockS .UNLOCKING } ∧
    (unlockStep d).raised = false ∧
    (unlatchStep d).device.lastState = some { st with lockState := .lockS .UNLATCHING } ∧
    (unlatchStep d).raised = false := by
  simp [lockStep, unlockStep, unlatchStep, lockishStep, h]

theorem optimistic_lock_state_witness :
    (lockStep devW9).device.lastState = some { kstA with lockState := .lockS .LOCKING } ∧
    (lockStep devW9).raised = false ∧
    (unlockStep devW9).device.lastState = some { kstA with lockState := .lockS .UNLOCKING } ∧
    (unlockStep devW9).raised = false ∧
    (unlatchStep devW9).device.lastState = some { kstA with lockState := .lockS .UNLATCHING } ∧
    (unlatchStep devW9).raised = false :=
  optimistic_lock_state devW9 kstA rfl

/-- Claim C10: on a device whose `last_state` is `None`, `lock()` (and
`unlock()`, `unlatch()`) raises at the `last_state['lock_state']`
assignment, but only after the encrypted `REQUEST_DATA(CHALLENGE)` has
already been sent and `_challenge_command` set — the operation is not
atomic on error — whereas `lock_action(a)` never touches `last_state`
and completes without error. -/
theorem lock_without_state (d : NukiDevice) (a : NukiAction)
    (h : d.lastState = none) :
    (lockStep d).raised = true ∧
    (lockStep d).effects = [Effect.sendEncrypted NukiCommand.REQUEST_DATA.code
      (toBytesLE 2 NukiCommand.CHALLENGE.code)] ∧
    (lockStep d).device.challengeCommand = some (.action .LOCK) ∧
    (lockStep d).device.lastState = none ∧
    (unlockStep d).raised = true ∧
    (unlatchStep d).raised = true ∧
    (lockActionStep a d).raised = false ∧
    (lockActionStep a d).device.lastState = d.lastState ∧
    (lockActionStep a d).effects = [Effect.sendEncrypted NukiCommand.REQUEST_DATA.code
      (toBytesLE 2 NukiCommand.CHALLENGE.code)] := by
  simp [lockStep, unlockStep, unlatchStep, lockishStep, lockActionStep, h]

theorem lock_without_state_witness :
    (lockStep devW10).raised = true ∧
    (lockStep devW10).effects = [Effect.sendEncrypted NukiCommand.REQUEST_DATA.code
      (toBytesLE 2 NukiCommand.CHALLENGE.code)] ∧
    (lockStep devW10).device.challengeCommand = some (.action .LOCK) ∧
    (lockStep devW10).device.lastState = none ∧
    (unlockStep devW10).raised = true ∧
    (unlatchStep devW10).raised = true ∧
    (lockActionStep .FULL_LOCK devW10).raised = false ∧
    (lockActionStep .FULL_LOCK devW10).device.lastState = devW10.lastState ∧
    (lockActionStep .FULL_LOCK devW10).effects = [Effect.sendEncrypted NukiCommand.REQUEST_DATA.code
      (toBytesLE 2 NukiCommand.CHALLENGE.code)] :=
  lock_without_state devW10 .FULL_LOCK rfl

theorem sendDataRun_spec (ok : Nat → Bool) (n : Nat) : ∀ s : Nat,
    (sendDataRun ok (List.range' s n)).raised = false ∧
    (sendDataRun ok (List.range' s n)).attempts ≤ n ∧
    ((sendDataRun ok (List.range' s n)).succeeded = true ↔
       ∃ i, s ≤ i ∧ i < s + n ∧ ok i = true) ∧
    ((sendDataRun ok (List.range' s n)).succeeded = true →
       1 ≤ (sendDataRun ok (List.range' s n)).attempts ∧
       ok (s + (sendDataRun ok (List.range' s n)).attempts - 1) = true ∧
       (∀ j, s ≤ j → j < s + (sendDataRun ok (List.range' s n)).attempts - 1 →
          ok j = false) ∧
       (sendDataRun ok (List.range' s n)).sleeps.length =
         (sendDataRun ok (List.range' s n)).attempts - 1) ∧
    ((sendDataRun ok (List.range' s n)).succeeded = false →
       (sendDataRun ok (List.range' s n)).attempts = n ∧
       (sendDataRun ok (List.range' s n)).sleeps.length = n) := by
  induction n with
  | zero =>
    intro s
    have hrun : sendDataRun ok (List.range' s 0) = ⟨0, false, [], false⟩ := rfl
    rw [hrun]
    refine ⟨rfl, Nat.le_refl 0, ?_, ?_, fun _ => ⟨rfl, rfl⟩⟩
    · constructor
      · intro h
        exact absurd h (by simp)
      · rintro ⟨i, h1, h2, _⟩
        exact absurd h2 (by omega)
    · intro h
      exact absurd h (by simp)
  | succ n ih =>
    intro s
    rw [List.range'_succ]
    by_cases hok : ok s = true
    · have hrun : sendDataRun ok (s :: List.range' (s + 1) n) = ⟨1, true, [], false⟩ := by
        simp [sendDataRun, hok]
      rw [hrun]
      dsimp only
      refine ⟨rfl, by omega, ?_, ?_, ?_⟩
      · constructor
        · intro _
          exact ⟨s, Nat.le_refl s, by omega, hok⟩
        · intro _
          rfl
      · intro _
        refine ⟨Nat.le_refl 1, ?_, ?_, rfl⟩
        · have h1 : s + 1 - 1 = s := by omega
          rw [h1]
          exact hok
        · intro j h1 h2
          exact absurd h2 (by omega)
      · intro h
        exact absurd h (by simp)
    · have hok' : ok s = false := by
        cases h : ok s
        · rfl
        · exact absurd h hok
      obtain ⟨ih1, ih2, ih3, ih4, ih5⟩ := ih (s + 1)
      have hrun : sendDataRun ok (s :: List.range' (s + 1) n) =
          ⟨(sendDataRun ok (List.range' (s + 1) n)).attempts + 1,
           (sendDataRun ok (List.range' (s + 1) n)).succeeded,
           1 :: (sendDataRun ok (List.range' (s + 1) n)).sleeps,
           (sendDataRun ok (List.range' (s + 1) n)).raised⟩ := by
        simp [sendDataRun, hok']
      rw [hrun]
      dsimp only
      refine ⟨ih1, by omega, ?_, ?_, ?_⟩
      · rw [show (⟨(sendDataRun ok (List.range' (s + 1) n)).attempts + 1,
              (sendDataRun ok (List.range' (s + 1) n)).succeeded,
              1 :: (sendDataRun ok (List.range' (s + 1) n)).sleeps,
              (sendDataRun ok (List.range' (s + 1) n)).raised⟩ : RetryResult).succeeded =
            (sendDataRun ok (List.range' (s + 1) n)).succeeded from rfl, ih3]
        constructor
        · rintro ⟨i, hi1, hi2, hi3⟩
          exact ⟨i, by omega, by omega, hi3⟩
        · rintro ⟨i, hi1, hi2, hi3⟩
          by_cases hieq : i = s
          · rw [hieq, hok'] at hi3
            exact absurd hi3 (by simp)
          · exact ⟨i, by omega, by omega, hi3⟩
      · intro hs
        obtain ⟨ha1, ha2, ha3, ha4⟩ := ih4 hs
        refine ⟨by omega, ?_, ?_, ?_⟩
        · have heq : s + ((sendDataRun ok (List.range' (s + 1) n)).attempts + 1) - 1 =
              s + 1 + (sendDataRun ok (List.range' (s + 1) n)).attempts - 1 := by omega
          rw [heq]
          exact ha2
        · intro j h1 h2
          by_cases hjeq : j = s
          · rw [hjeq]
            exact hok'
          · exact ha3 j (by omega) (by omega)
        · show (1 :: (sendDataRun ok (List.range' (s + 1) n)).sleeps).length = _
          rw [List.length_cons, ha4]
          omega
      · intro hf
        obtain ⟨hb1, hb2⟩ := ih5 hf
        refine ⟨by omega, ?_⟩
        show (1 :: (sendDataRun ok (List.range' (s + 1) n)).sleeps).length = _
        rw [List.length_cons, hb2]

/-- Claim C5 (amended): the `_send_data` task attempts the write at most
`retry` times, stopping at the first successful attempt (every earlier
attempt failed), and sleeps 200 ms after each failed attempt — including
the last one; when every attempt fails the failure is only logged: the
task returns normally and nothing is raised to the caller. -/
theorem send_data_retry_amended (retry : Nat) (ok : Nat → Bool) :
    (sendData retry ok).raised = false ∧
    (sendData retry ok).attempts ≤ retry ∧
    ((sendData retry ok).succeeded = true ↔ ∃ i, 1 ≤ i ∧ i ≤ retry ∧ ok i = true) ∧
    ((sendData retry ok).succeeded = true →
       ok (sendData retry ok).attempts = true ∧
       (∀ j, 1 ≤ j → j < (sendData retry ok).attempts → ok j = false) ∧
       (sendData retry ok).sleeps.length = (sendData retry ok).attempts - 1) ∧
    ((sendData retry ok).succeeded = false →
       (sendData retry ok).attempts = retry ∧
       (sendData retry ok).sleeps.length = retry) := by
  simp only [sendData]
  obtain ⟨h1, h2, h3, h4, h5⟩ := sendDataRun_spec ok retry 1
  refine ⟨h1, h2, ?_, ?_, h5⟩
  · rw [h3]
    constructor
    · rintro ⟨i, hi1, hi2, hi3⟩
      exact ⟨i, hi1, by omega, hi3⟩
    · rintro ⟨i, hi1, hi2, hi3⟩
      exact ⟨i, hi1, by omega, hi3⟩
  · intro hs
    obtain ⟨ha1, ha2, ha3, ha4⟩ := h4 hs
    have heq : 1 + (sendDataRun ok (List.range' 1 retry)).attempts - 1 =
        (sendDataRun ok (List.range' 1 retry)).attempts := by omega
    rw [heq] at ha2 ha3
    exact ⟨ha2, fun j hj1 hj2 => ha3 j hj1 hj2, ha4⟩

/-- Claim C5 counterexample: with every attempt failing and the default
`retry = 3`, the task makes 3 attempts, sleeps after each of them (3
sleeps, not 2), and returns with nothing raised — no `DeviceUnreachable`
or any other error is surfaced to the caller. -/
theorem send_data_retry_cex :
    sendData 3 (fun _ => false) = ⟨3, false, [1, 1, 1], false⟩ := rfl

theorem send_data_retry_witness :
    (sendData 3 (fun i => decide (i = 2))).raised = false ∧
    (sendData 3 (fun i => decide (i = 2))).attempts ≤ 3 :=
  ⟨(send_data_retry_amended 3 (fun i => decide (i = 2))).1,
   (send_data_retry_amended 3 (fun i => decide (i = 2))).2.1⟩

/-- Claim C6 (amended): on an ERROR_REPORT, the handler never invokes the
pairing callback and never raises an error to the caller; code
NOT_PAIRING (0x10) terminates the whole process via `exit(0)`, and every
other code is only logged. -/
theorem pairing_error_report_amended (b : Nat) :
    (handleErrorReport (signedByte b)).pairingCallbackInvoked = false ∧
    (handleErrorReport (signedByte b)).errorRaised = false ∧
    ((handleErrorReport (signedByte b)).exitsProcess = true ↔ b % 256 = 0x10) := by
  by_cases h : b % 256 < 128
  · simp only [signedByte, h, if_true, handleErrorReport]
    split_ifs with h2
    · simp
      omega
    · simp
      omega
  · simp only [signedByte, h, if_false, handleErrorReport]
    split_ifs with h2
    · exfalso
      omega
    · simp
      omega

/-- Claim C6 counterexample: a non-NOT_PAIRING error code (0x11) is only
logged — pairing is not aborted, no `PairingFailed` is surfaced — and
NOT_PAIRING (0x10) exits the process without reporting to the pairing
callback. -/
theorem pairing_error_report_cex :
    handleErrorReport (signedByte 0x11) = ⟨false, false, false⟩ ∧
    handleErrorReport (signedByte 0x10) = ⟨true, false, false⟩ := by decide

theorem pairing_error_report_witness :
    (handleErrorReport (signedByte 0x23)).pairingCallbackInvoked = false ∧
    (handleErrorReport (signedByte 0x23)).errorRaised = false :=
  ⟨(pairing_error_report_amended 0x23).1, (pairing_error_report_amended 0x23).2.1⟩

/-- Claim C7 (amended): the identification `connect` task is enqueued
exactly when the device kind is unknown, and — independently of it, not
as an `elif` — `update_state` is issued when `last_state` is absent or
the beacon's event bit is set, else `get_config` when the config is
empty; the two chains together issue at most two follow-ups, and at most
one once the kind is known. -/
theorem beacon_dispatch_amended (dt : Option DeviceType) (ls : Bool)
    (txP : Nat) (cfg : Bool) :
    (DispatchTask.connectTask ∈ detectedBeaconTasks dt ls txP cfg ↔ dt = none) ∧
    (DispatchTask.updateStateTask ∈ detectedBeaconTasks dt ls txP cfg ↔
       (ls = false ∨ txP &&& 1 ≠ 0)) ∧
    (DispatchTask.getConfigTask ∈ detectedBeaconTasks dt ls txP cfg ↔
       (ls = true ∧ txP &&& 1 = 0 ∧ cfg = false)) ∧
    (detectedBeaconTasks dt ls txP cfg).length ≤ 2 ∧
    (dt ≠ none → (detectedBeaconTasks dt ls txP cfg).length ≤ 1) := by
  rcases Nat.mod_two_eq_zero_or_one txP with he | he <;>
    cases ls <;> cases cfg <;> cases dt <;>
    simp [detectedBeaconTasks, Nat.and_one_is_mod, he]

/-- Claim C7 counterexample: a first-ever beacon from a device of unknown
kind with no cached state enqueues BOTH the `connect` identification task
and an `update_state` — two follow-up tasks, not a mutually exclusive
choice of one. -/
theorem beacon_dispatch_cex :
    detectedBeaconTasks none false 0 false =
      [DispatchTask.connectTask, DispatchTask.updateStateTask] ∧
    1 < (detectedBeaconTasks none false 0 false).length := by decide

theorem beacon_dispatch_witness :
    (detectedBeaconTasks (some .SMARTLOCK_1_2) true 0 true).length ≤ 1 ∧
    (DispatchTask.connectTask ∈ detectedBeaconTasks (some .SMARTLOCK_1_2) true 0 true ↔
       (some DeviceType.SMARTLOCK_1_2 : Option DeviceType) = none) :=
  ⟨(beacon_dispatch_amended (some .SMARTLOCK_1_2) true 0 true).2.2.2.2 (by simp),
   (beacon_dispatch_amended (some .SMARTLOCK_1_2) true 0 true).1⟩

/-- Claim C2: on receiving CHALLENGE(n2) while
`_challenge_command == AUTH_AUTHENTICATOR` (awaiting the second pairing
challenge after AUTH_AUTHENTICATOR), the handler sends exactly one
pairing frame: the AUTH_DATA frame whose payload is
HMAC-SHA256(shared_key, type(1) || app_id(4 LE) || name(32, NUL-padded) ||
n3 || n2) followed by type || app_id || name || n3, in that byte order,
where n3 is the fresh 32-byte random nonce; and `_challenge_command`
advances to AUTH_DATA. -/
theorem auth_data_frame_correct (hmacSha256 : List Nat → List Nat → List Nat)
    (br : BridgeInfo) (sharedKey bridgePK nukiPK n3 n2 : List Nat)
    (d : NukiDevice)
    (hch : d.challengeCommand = some (.cmd .AUTH_AUTHENTICATOR))
    (hname : br.nameBytes.length ≤ 32) (hn3 : n3.length = 32) :
    (handleChallenge hmacSha256 br sharedKey bridgePK nukiPK n3 d n2).2 =
      [Effect.sendPairing
        (authDataFrameSpec hmacSha256 sharedKey br.appId br.nameBytes n3 n2)] ∧
    (handleChallenge hmacSha256 br sharedKey bridgePK nukiPK n3 d n2).1.challengeCommand =
      some (.cmd .AUTH_DATA) ∧
    (ljust br.nameBytes 32 0).length = 32 ∧ n3.length = 32 := by
  refine ⟨?_, ?_, ?_, hn3⟩
  · simp [handleChallenge, hch, authDataFrameSpec, ljust, prepareCommand,
      toBytesLE, NukiCommand.code, List.append_assoc]
  · simp [handleChallenge, hch]
  · simp [ljust]
    omega

theorem auth_data_frame_witness :
    (handleChallenge mockHmac brW [3, 3] [] [] (List.replicate 32 9) devW2 [7]).2 =
      [Effect.sendPairing
        (authDataFrameSpec mockHmac [3, 3] brW.appId brW.nameBytes
          (List.replicate 32 9) [7])] ∧
    (handleChallenge mockHmac brW [3, 3] [] [] (List.replicate 32 9) devW2 [7]).1.challengeCommand =
      some (.cmd .AUTH_DATA) ∧
    (ljust brW.nameBytes 32 0).length = 32 ∧ (List.replicate 32 9).length = 32 :=
  auth_data_frame_correct mockHmac brW [3, 3] [] [] (List.replicate 32 9) [7]
    devW2 rfl (by decide) (by decide)

/-- Claim C4 (amended): on a KEYTURNER_STATES reply that the handler
processes without raising, the observer callback fires only when the
config is cached (and `last_state` — just replaced — is present); and a
`get_config` is issued before the observer fires whenever the config is
empty or the update count changed, PROVIDED the reply was the solicited
one (`_challenge_command == KEYTURNER_STATES`); for an unsolicited reply
no `get_config` is chained (see the counterexample). -/
theorem state_config_coupling_amended (d : NukiDevice) (data : KState)
    (d' : NukiDevice) (effs : List Effect)
    (h : handleKeyturnerStates d data = some (d', effs)) :
    (Effect.notifyObserver ∈ effs →
       d.configNonempty = true ∧ d'.lastState = some data) ∧
    ((d.challengeCommand = some (.cmd .KEYTURNER_STATES) ∧
        (d.configNonempty = false ∨
          ∃ st, d.lastState = some st ∧
            st.currentUpdateCount ≠ data.currentUpdateCount)) →
      effs.head? = some (Effect.sendEncrypted NukiCommand.REQUEST_DATA.code
        (toBytesLE 2 NukiCommand.CHALLENGE.code))) := by
  by_cases hcfg : d.configNonempty = false
  · by_cases hch : d.challengeCommand = some (.cmd .KEYTURNER_STATES)
    · simp only [handleKeyturnerStates, hcfg, if_true, getConfigStep, hch,
        Option.some.injEq, Prod.mk.injEq] at h
      by_cases hrst : d.deviceType = some .OPENER ∧ data.lastLockActionCompletionStatus ≠ 0 <;>
        simp only [hrst, if_true, if_false, and_true, decide_True, decide_False,
          reduceIte] at h <;>
      · obtain ⟨hd, he⟩ := h
        subst hd
        subst he
        constructor
        · intro hmem
          simp [hcfg] at hmem
        · intro _
          simp
    · simp only [handleKeyturnerStates, hcfg, if_true, Option.some.injEq, Prod.mk.injEq] at h
      have hcond : ¬(d.challengeCommand = some (.cmd .KEYTURNER_STATES) ∧ True) := by
        simp [hch]
      constructor
      · intro hmem
        rcases h with ⟨hd, he⟩
        subst he
        simp only [hch, hcfg, if_false, reduceIte, false_and] at hmem ⊢
        simp [hcfg] at hmem
      · rintro ⟨hch', _⟩
        exact absurd hch' hch
  · have hcfgT : d.configNonempty = true := by
      cases hc : d.configNonempty
      · exact absurd hc hcfg
      · rfl
    cases hls : d.lastState with
    | none =>
      simp only [handleKeyturnerStates, hcfgT, hls] at h
      cases h
    | some st =>
      by_cases hcnt : st.currentUpdateCount = data.currentUpdateCount
      · have hflag : (decide (st.currentUpdateCount ≠ data.currentUpdateCount)) = false := by
          simp [hcnt]
        simp only [handleKeyturnerStates, hcfgT, hls, hflag, Bool.false_eq_true,
          Bool.true_eq_false, and_false, if_false, reduceIte, Option.some.injEq,
          Prod.mk.injEq] at h
        obtain ⟨hd, he⟩ := h
        subst hd
        subst he
        constructor
        · intro _
          exact ⟨hcfgT, rfl⟩
        · rintro ⟨hch', hor⟩
          rcases hor with hc | ⟨st', hst', hne⟩
          · rw [hcfgT] at hc
            cases hc
          · simp only [hls, Option.some.injEq] at hst'
            subst hst'
            exact absurd hcnt hne
      · have hflag : (decide (st.currentUpdateCount ≠ data.currentUpdateCount)) = true := by
          simp [hcnt]
        by_cases hch : d.challengeCommand = some (.cmd .KEYTURNER_STATES)
        · simp only [handleKeyturnerStates, hcfgT, hls, hflag, hch, getConfigStep,
            Bool.true_eq_false, and_self, if_true, reduceIte, Option.some.injEq,
            Prod.mk.injEq, true_and] at h
          obtain ⟨hd, he⟩ := h
          subst hd
          subst he
          constructor
          · intro _
            exact ⟨hcfgT, rfl⟩
          · intro _
            simp
        · simp only [handleKeyturnerStates, hcfgT, hls, hflag, hch, false_and,
            Bool.true_eq_false, if_false, reduceIte, Option.some.injEq,
            Prod.mk.injEq] at h
          obtain ⟨hd, he⟩ := h
          subst hd
          subst he
          constructor
          · intro _
            exact ⟨hcfgT, rfl⟩
          · rintro ⟨hch', _⟩
            exact absurd hch' hch

/-- Claim C4 counterexample: an unsolicited KEYTURNER_STATES reply
(`_challenge_command` still holds the just-issued LOCK action) whose
`current_update_count` (6) differs from the cached one (5), on a device
with a cached config: the handler fires the observer as its only effect —
no `get_config` is issued before it, contradicting the claim's
unconditional coupling. -/
theorem state_config_coupling_cex :
    Option.map Prod.snd (handleKeyturnerStates devCex4 kstB) =
      some [Effect.notifyObserver] ∧
    devCex4.configNonempty = true ∧
    Option.map KState.currentUpdateCount devCex4.lastState = some 5 ∧
    kstB.currentUpdateCount = 6 := by decide

theorem state_config_coupling_witness :
    (Effect.notifyObserver ∈ [Effect.sendEncrypted NukiCommand.REQUEST_DATA.code
        (toBytesLE 2 NukiCommand.CHALLENGE.code)] →
      devW4.configNonempty = true ∧
      (⟨some kstA, false, some (.cmd .REQUEST_CONFIG), some .SMARTLOCK_1_2⟩ :
        NukiDevice).lastState = some kstA) ∧
    ((devW4.challengeCommand = some (.cmd .KEYTURNER_STATES) ∧
        (devW4.configNonempty = false ∨
          ∃ st, devW4.lastState = some st ∧
            st.currentUpdateCount ≠ kstA.currentUpdateCount)) →
      [Effect.sendEncrypted NukiCommand.REQUEST_DATA.code
        (toBytesLE 2 NukiCommand.CHALLENGE.code)].head? =
        some (Effect.sendEncrypted NukiCommand.REQUEST_DATA.code
          (toBytesLE 2 NukiCommand.CHALLENGE.code))) :=
  state_config_coupling_amended devW4 kstA
    ⟨some kstA, false, some (.cmd .REQUEST_CONFIG), some .SMARTLOCK_1_2⟩
    [Effect.sendEncrypted NukiCommand.REQUEST_DATA.code
      (toBytesLE 2 NukiCommand.CHALLENGE.code)] (by decide)

theorem codeToCommand_lt (c : Nat) (cmd : NukiCommand) (h : codeToCommand c = some cmd) :
    c < 65536 := by
  by_contra hge
  push_neg at hge
  unfold codeToCommand at h
  rw [if_neg (by omega : ¬(c = 0x0001)), if_neg (by omega : ¬(c = 0x0003)),
    if_neg (by omega : ¬(c = 0x0004)), if_neg (by omega : ¬(c = 0x0005)),
    if_neg (by omega : ¬(c = 0x0006)), if_neg (by omega : ¬(c = 0x0007)),
    if_neg (by omega : ¬(c = 0x000C)), if_neg (by omega : ¬(c = 0x000D)),
    if_neg (by omega : ¬(c = 0x000E)), if_neg (by omega : ¬(c = 0x0012)),
    if_neg (by omega : ¬(c = 0x0014)), if_neg (by omega : ¬(c = 0x0015)),
    if_neg (by omega : ¬(c = 0x001E))] at h
  exact Option.noConfusion h

theorem parse_prepared (c : Nat) (cmd : NukiCommand) (p q : List Nat)
    (hq : q.length = 2) (hc : codeToCommand c = some cmd) :
    parseCommandHeader (toBytesLE 2 c ++ (p ++ q)) = some (cmd, p) := by
  have hlt := codeToCommand_lt c cmd hc
  have hb : toBytesLE 2 c ++ (p ++ q) = c % 256 :: c / 256 % 256 :: (p ++ q) := rfl
  rw [hb]
  have hcc : c % 256 + 256 * (c / 256 % 256) = c := by omega
  show (match codeToCommand (c % 256 + 256 * (c / 256 % 256)) with
    | some cmd => some (cmd, takeAllButLast 2 (p ++ q))
    | none => none) = some (cmd, p)
  rw [hcc, hc]
  have ht : takeAllButLast 2 (p ++ q) = p := by
    unfold takeAllButLast
    rw [List.length_append, hq]
    have he : p.length + 2 - 2 = p.length := by omega
    rw [he]
    exact List.take_left p q
  rw [ht]

/-- Claim C1: framing round-trip.  For every known command code and
payload, `_parse_command`'s dispatch prefix applied to the
`_prepare_command` frame recovers the command (first 2 little-endian
bytes) and the payload (after stripping the 2 CRC bytes); and for a
device with a 4-byte `auth_id` and a shared-key secretbox satisfying the
NaCl length and decryption laws, `_decrypt_command` applied to the
`_encrypt_command` frame followed by the same parsing again yields the
command and payload. -/
theorem framing_round_trip (c : Nat) (cmd : NukiCommand) (p : List Nat)
    (hc : codeToCommand c = some cmd) (box : SecretBox)
    (hlen : ∀ n m, (box.sealMsg n m).length = m.length + 16)
    (hopen : ∀ n m, n.length = 24 → box.opn (n ++ box.sealMsg n m) = some m)
    (authId : List Nat) (hA : authId.length = 4)
    (nonce : List Nat) (hN : nonce.length = 24)
    (hp : p.length + 24 < 65536) :
    parseCommandHeader (prepareCommand c p) = some (cmd, p) ∧
    (decryptCommand box (encryptCommand box authId c p nonce)).bind parseCommandHeader
      = some (cmd, p) := by
  constructor
  · have hprep : prepareCommand c p =
        toBytesLE 2 c ++ (p ++ toBytesLE 2 (crc16xmodem (toBytesLE 2 c ++ p) 0xffff)) := by
      simp [prepareCommand, List.append_assoc]
    rw [hprep]
    exact parse_prepared c cmd p _ (toBytesLE_length 2 _) hc
  · have htake : takeAllButLast 2 (prepareCommand c p) = toBytesLE 2 c ++ p := by
      show ((toBytesLE 2 c ++ p) ++ toBytesLE 2 (crc16xmodem (toBytesLE 2 c ++ p) 0xffff)).take
          (((toBytesLE 2 c ++ p) ++ toBytesLE 2 (crc16xmodem (toBytesLE 2 c ++ p) 0xffff)).length - 2)
          = toBytesLE 2 c ++ p
      rw [List.length_append, toBytesLE_length]
      have he : (toBytesLE 2 c ++ p).length + 2 - 2 = (toBytesLE 2 c ++ p).length := by omega
      rw [he]
      exact List.take_left _ _
    simp only [encryptCommand, htake]
    generalize hU : (authId ++ (toBytesLE 2 c ++ p)) ++
        toBytesLE 2 (crc16xmodem (authId ++ (toBytesLE 2 c ++ p)) 0xffff) = U
    have hUlen : U.length = p.length + 8 := by
      rw [← hU]
      simp [toBytesLE_length, hA]
      omega
    generalize hE : box.sealMsg nonce U = E
    have hElen : E.length = p.length + 24 := by
      rw [← hE, hlen, hUlen]
    have hmlen : (nonce ++ authId ++ toBytesLE 2 E.length ++ E).length = 30 + E.length := by
      simp [List.length_append, hN, hA, toBytesLE_length]
      omega
    rw [decryptCommand, if_neg (by omega)]
    have ht24 : (nonce ++ authId ++ toBytesLE 2 E.length ++ E).take 24 = nonce := by
      rw [List.append_assoc, List.append_assoc]
      exact List.take_left' hN
    have hd24 : (nonce ++ authId ++ toBytesLE 2 E.length ++ E).drop 24 =
        authId ++ (toBytesLE 2 E.length ++ E) := by
      rw [List.append_assoc, List.append_assoc]
      exact List.drop_left' hN
    have hd4 : (authId ++ (toBytesLE 2 E.length ++ E)).drop 4 = toBytesLE 2 E.length ++ E :=
      List.drop_left' hA
    have hu16 : u16LE (toBytesLE 2 E.length ++ E) = E.length := by
      have hb : toBytesLE 2 E.length ++ E = E.length % 256 :: E.length / 256 % 256 :: E := rfl
      rw [hb]
      show E.length % 256 + 256 * (E.length / 256 % 256) = E.length
      omega
    have hd30 : (nonce ++ authId ++ toBytesLE 2 E.length ++ E).drop 30 = E := by
      have hpre : (nonce ++ authId ++ toBytesLE 2 E.length).length = 30 := by
        simp [List.length_append, hN, hA, toBytesLE_length]
      exact List.drop_left' hpre
    simp only [ht24, hd24, hd4, hu16, hd30, List.take_length]
    rw [← hE, hopen nonce U hN]
    simp only [Option.map_some', Option.some_bind]
    rw [← hU]
    have hUd4 : ((authId ++ (toBytesLE 2 c ++ p)) ++
        toBytesLE 2 (crc16xmodem (authId ++ (toBytesLE 2 c ++ p)) 0xffff)).drop 4 =
        (toBytesLE 2 c ++ p) ++ toBytesLE 2 (crc16xmodem (authId ++ (toBytesLE 2 c ++ p)) 0xffff) := by
      rw [List.append_assoc]
      exact List.drop_left' hA
    rw [hUd4, List.append_assoc]
    exact parse_prepared c cmd p _ (toBytesLE_length 2 _) hc

theorem mockBox_len (n m : List Nat) : (mockBox.sealMsg n m).length = m.length + 16 := by
  simp [mockBox]

theorem mockBox_open (n m : List Nat) (h : n.length = 24) :
    mockBox.opn (n ++ mockBox.sealMsg n m) = some m := by
  have h1 : mockBox.sealMsg n m = m ++ List.replicate 16 0 := rfl
  have h2 : ∀ d : List Nat, mockBox.opn d = some ((d.drop 24).take (d.length - 24 - 16)) :=
    fun _ => rfl
  rw [h1, h2, List.drop_left' h]
  have hlen2 : (n ++ (m ++ List.replicate 16 0)).length - 24 - 16 = m.length := by
    simp [List.length_append, h]
  rw [hlen2, List.take_left]

theorem framing_round_trip_witness :
    parseCommandHeader (prepareCommand 0x0C [1, 2, 3]) =
      some (.KEYTURNER_STATES, [1, 2, 3]) ∧
    (decryptCommand mockBox (encryptCommand mockBox [9, 9, 9, 9] 0x0C [1, 2, 3]
        (List.replicate 24 7))).bind parseCommandHeader =
      some (.KEYTURNER_STATES, [1, 2, 3]) :=
  framing_round_trip 0x0C .KEYTURNER_STATES [1, 2, 3] rfl mockBox mockBox_len
    mockBox_open [9, 9, 9, 9] rfl (List.replicate 24 7) (by decide) (by decide)

end NukiBridge
